import Mathlib

/-!
Shallow embedding of the AI video-tutorial chatbot (src/main.py):
query cleaning (`extract_topic_from_query`), ISO-8601 duration parsing
(`parse_duration`), the quality-score heuristic (`calculate_quality_score`),
the search/rank pipeline (`find_best_tutorials`, with the two HTTP calls
abstracted as `Except`-valued responses), and the static roadmap lookup
(`generate_roadmap`).  Python floats are modelled as exact rationals and
Python ints as `Nat` counts; `re` behaviour is embedded by a small
deterministic matcher specialised to the patterns the code uses.
-/

/-- ASCII lower-casing of a character, as Python `str.lower` acts on the
ASCII inputs relevant here. -/
def lowerChar (c : Char) : Char :=
  if 'A' ≤ c ∧ c ≤ 'Z' then Char.ofNat (c.toNat + 32) else c

/-- Lower-case a string character-wise. -/
def lowerStr (s : String) : String := ⟨s.data.map lowerChar⟩

/-- Python `\s` / `str.isspace` on ASCII: space, tab, newline, carriage
return, vertical tab, form feed. -/
def isPySpace (c : Char) : Bool :=
  c = ' ' || c = '\t' || c = '\n' || c = '\r' || c = '\x0b' || c = '\x0c'

/-- Length of the longest prefix whose characters satisfy `p`. -/
def countWhile (p : Char → Bool) : List Char → Nat
  | [] => 0
  | c :: cs => if p c then countWhile p cs + 1 else 0

/-- Value of a digit string (used for the regex groups fed to `int`). -/
def digitsToNat (ds : List Char) : Nat :=
  ds.foldl (fun n c => n * 10 + (c.toNat - '0'.toNat)) 0

/-- One optional component `(\d+)X` of the duration regex: a maximal digit
run followed by the marker character.  Backtracking inside the digit run
never succeeds (a shorter run is followed by a digit, not the marker), so
the regex behaviour is this deterministic check. -/
def tryComponent (marker : Char) (s : List Char) : Option (Nat × List Char) :=
  let ds := s.takeWhile Char.isDigit
  if ds.isEmpty then none
  else
    match s.drop ds.length with
    | c :: rest => if c = marker then some (digitsToNat ds, rest) else none
    | [] => none

/-- Read an optional component, defaulting to `0` and consuming nothing
when it is absent (the regex group is `None`, `int(None or 0) = 0`). -/
def getComponent (marker : Char) (s : List Char) : Nat × List Char :=
  match tryComponent marker s with
  | some (n, r) => (n, r)
  | none => (0, s)

/-- The anchored literal `PT` at the start of `re.match`'s pattern. -/
def startsWithPT (l : List Char) : Bool :=
  List.isPrefixOf ['P', 'T'] l

/-- Body of the duration regex after the `PT` anchor. -/
def parsePTBody (rest : List Char) : Nat :=
  let hr := getComponent 'H' rest
  let mr := getComponent 'M' hr.2
  let sr := getComponent 'S' mr.2
  hr.1 * 3600 + mr.1 * 60 + sr.1

/-- `YouTubeTutorialFinder.parse_duration`: `re.match` of
`PT(?:(\d+)H)?(?:(\d+)M)?(?:(\d+)S)?` (a prefix match anchored at the
start), groups defaulted to 0, combined as `h*3600 + m*60 + s`; no match
(no leading `PT`) gives 0. -/
def parse_duration (duration : String) : Nat :=
  if startsWithPT duration.data then parsePTBody (duration.data.drop 2) else 0

/-- A string of exactly the `PT#H#M#S` shape (with optional components):
the duration regex consumes the whole string.  This formalises the spec's
notion of a well-formed duration token. -/
def wellFormedDuration (s : String) : Bool :=
  if startsWithPT s.data then
    let r1 := (getComponent 'H' (s.data.drop 2)).2
    let r2 := (getComponent 'M' r1).2
    let r3 := (getComponent 'S' r2).2
    r3.isEmpty
  else false

/-- Statistics/details record for one video, as consumed by
`calculate_quality_score` and the join in `find_best_tutorials`
(`viewCount`, `likeCount`, `commentCount` defaulted to 0 upstream,
`duration` defaulted to `"PT0S"`). -/
structure DetailsItem where
  id : String
  viewCount : Nat
  likeCount : Nat
  commentCount : Nat
  duration : String
deriving DecidableEq

/-- The banded duration preference of `calculate_quality_score`. -/
def duration_score (duration_minutes : ℚ) : ℚ :=
  if 10 ≤ duration_minutes ∧ duration_minutes ≤ 60 then 1
  else if 5 ≤ duration_minutes ∧ duration_minutes < 10 then 8/10
  else if 60 < duration_minutes ∧ duration_minutes ≤ 120 then 9/10
  else 6/10

/-- `engagement_rate = (likes + comments) / max(views, 1) * 100`. -/
def engagement_rate (views likes comments : Nat) : ℚ :=
  ((likes : ℚ) + (comments : ℚ)) / ((max views 1 : Nat) : ℚ) * 100

/-- The final linear combination of `calculate_quality_score`, with the
float literals `0.3` and `0.4` as exact rationals. -/
def quality_formula (views er ds : ℚ) : ℚ :=
  views / 1000 * (3/10) + er * 10 * (4/10) + ds * 100 * (3/10)

/-- `YouTubeTutorialFinder.calculate_quality_score`, over exact rational
arithmetic in place of Python floats. -/
def calculate_quality_score (video_data : DetailsItem) : ℚ :=
  let views := video_data.viewCount
  let likes := video_data.likeCount
  let comments := video_data.commentCount
  let duration_seconds := parse_duration video_data.duration
  let duration_minutes : ℚ := (duration_seconds : ℚ) / 60
  quality_formula (views : ℚ) (engagement_rate views likes comments)
    (duration_score duration_minutes)

/-- Atoms of the regex fragments used by `extract_topic_from_query`:
literal text, greedy `\s+`, and lazy `.*?` (which cannot cross a
newline). -/
inductive Atom where
  | lit (s : List Char)
  | ws
  | lazystar
deriving DecidableEq

/-- Match a sequence of atoms at the head of the input, returning the
remainder after the preferred (Python backtracking order) match:
`\s+` tries the longest whitespace run first, `.*?` the shortest
extent first. -/
def matchAtoms : List Atom → List Char → Option (List Char)
  | [], s => some s
  | Atom.lit l :: rest, s =>
      if l.isPrefixOf s then matchAtoms rest (s.drop l.length) else none
  | Atom.ws :: rest, s =>
      let m := countWhile isPySpace s
      ((List.range m).map (fun i => m - i)).findSome?
        (fun k => matchAtoms rest (s.drop k))
  | Atom.lazystar :: rest, s =>
      let m := countWhile (fun c => c ≠ '\n') s
      (List.range (m + 1)).findSome? (fun k => matchAtoms rest (s.drop k))

/-- Fuel-indexed worker for `reSub`; the fuel only bounds the recursion
depth and is irrelevant whenever it is at least the input length
(`reSubAux_fuel_irrel`). -/
def reSubAux (p : List Atom) (repl : List Char) : Nat → List Char → List Char
  | _, [] => []
  | 0, s => s
  | fuel + 1, c :: cs =>
      match matchAtoms p (c :: cs) with
      | some r =>
          if r.length < (c :: cs).length then repl ++ reSubAux p repl fuel r
          else c :: reSubAux p repl fuel cs
      | none => c :: reSubAux p repl fuel cs

/-- Python `re.sub(pattern, repl, s)`: scan left to right, replace every
non-overlapping match (continuing after the end of each match).  The
patterns used here never match the empty string; the length guard in the
worker makes the recursion total without changing behaviour on them. -/
def reSub (p : List Atom) (repl : List Char) (s : List Char) : List Char :=
  reSubAux p repl s.length s

/-- Modelled from the spec's words for claim comparison: a substitution
that removes only the first (leftmost) match and leaves the rest of
the string untouched. -/
def reSubFirst (p : List Atom) (repl : List Char) : List Char → List Char
  | [] => []
  | c :: cs =>
      match matchAtoms p (c :: cs) with
      | some r =>
          if r.length < (c :: cs).length then repl ++ r
          else c :: reSubFirst p repl cs
      | none => c :: reSubFirst p repl cs

/-- The fixed ordered filler-pattern list of `extract_topic_from_query`
(each Python raw-string pattern, translated atom by atom). -/
def patterns_to_remove : List (List Atom) :=
  [ [Atom.lit "can you find".data, Atom.lazystar, Atom.lit "for".data, Atom.ws],
    [Atom.lit "i want to learn".data, Atom.ws],
    [Atom.lit "teach me".data, Atom.ws],
    [Atom.lit "show me".data, Atom.ws],
    [Atom.lit "find".data, Atom.lazystar, Atom.lit "tutorial".data,
      Atom.lazystar, Atom.lit "for".data, Atom.ws],
    [Atom.lit "best".data, Atom.lazystar, Atom.lit "tutorial".data,
      Atom.lazystar, Atom.lit "for".data, Atom.ws],
    [Atom.lit "good".data, Atom.lazystar, Atom.lit "video".data,
      Atom.lazystar, Atom.lit "for".data, Atom.ws],
    [Atom.lit "help me with".data, Atom.ws],
    [Atom.lit "how to".data, Atom.ws],
    [Atom.lit "learn".data, Atom.ws],
    [Atom.lit "tutorial".data, Atom.lazystar, Atom.lit "on".data, Atom.ws],
    [Atom.lit "course".data, Atom.lazystar, Atom.lit "on".data, Atom.ws],
    [Atom.lit "video".data, Atom.lazystar, Atom.lit "about".data, Atom.ws],
    [Atom.lit "please".data, Atom.ws],
    [Atom.lit "could you".data, Atom.ws],
    [Atom.lit "would you".data, Atom.ws] ]

/-- The pattern `r"please\s+"`, named for the concrete theorems below. -/
def pat_please : List Atom := [Atom.lit "please".data, Atom.ws]

/-- `re.sub(r'^(a|an|the|some|any)\s+', '', s)`: anchored at position 0,
alternatives tried in listed order (Python alternation preference), the
greedy `\s+` run removed with the determiner; at most one removal since
`^` cannot match after a non-empty replacement. -/
def stripDeterminer (s : List Char) : List Char :=
  match ["a".data, "an".data, "the".data, "some".data, "any".data].findSome?
      (fun d =>
        let rest := s.drop d.length
        if d.isPrefixOf s && decide (0 < countWhile isPySpace rest) then
          some (rest.drop (countWhile isPySpace rest))
        else none) with
  | some r => r
  | none => s

/-- Python `str.strip()` on ASCII whitespace. -/
def stripEnds (s : List Char) : List Char :=
  ((s.dropWhile isPySpace).reverse.dropWhile isPySpace).reverse

/-- `YouTubeTutorialFinder.extract_topic_from_query`: lower-case, apply
`re.sub(pattern, "", ...)` for each filler pattern in listed order,
collapse whitespace runs to single spaces, strip, drop a leading
determiner, and fall back to the original query when the result is
empty. -/
def extract_topic_from_query (user_query : String) : String :=
  let query_lower := (lowerStr user_query).data
  let cleaned1 := patterns_to_remove.foldl (fun s p => reSub p [] s) query_lower
  let cleaned2 := stripEnds (reSub [Atom.ws] [' '] cleaned1)
  let cleaned3 := stripDeterminer cleaned2
  if cleaned3.isEmpty then user_query else ⟨cleaned3⟩

/-- Modelled from the spec's words for claim comparison: the same
pipeline, but with each filler pattern removing only its first
(leftmost) match. -/
def extract_topic_firstMatchOnly (user_query : String) : String :=
  let query_lower := (lowerStr user_query).data
  let cleaned1 :=
    patterns_to_remove.foldl (fun s p => reSubFirst p [] s) query_lower
  let cleaned2 := stripEnds (reSub [Atom.ws] [' '] cleaned1)
  let cleaned3 := stripDeterminer cleaned2
  if cleaned3.isEmpty then user_query else ⟨cleaned3⟩

example : extract_topic_from_query "I want to learn Python basics" =
    "python basics" := by decide
example : extract_topic_from_query "please please python" = "python" := by
  decide
example : extract_topic_firstMatchOnly "please please python" =
    "please python" := by decide
example : extract_topic_from_query "  " = "  " := by decide

example : parse_duration "PT1H5M30S" = 3930 := by decide
example : parse_duration "PT45S" = 45 := by decide
example : parse_duration "hello" = 0 := by decide
example : parse_duration "PT45SX" = 45 := by decide
example : wellFormedDuration "PT45SX" = false := by decide
example : wellFormedDuration "PT45S" = true := by decide

/-- One item of the search response, projected to the fields
`find_best_tutorials` reads (`id.videoId` and the snippet fields). -/
structure SearchItem where
  videoId : String
  title : String
  channelTitle : String
  description : String
  thumbnailUrl : String
  publishedAt : String
deriving DecidableEq

/-- The `video_info` dict assembled for each ranked tutorial. -/
structure RankedVideo where
  video_id : String
  title : String
  channel : String
  description : String
  thumbnail : String
  published : String
  url : String
  views : Nat
  likes : Nat
  comments : Nat
  duration : String
  quality_score : ℚ
  extracted_topic : String
deriving DecidableEq

/-- `YouTubeTutorialFinder.search_videos` with the HTTP call abstracted:
an `Except`-valued response stands for the network outcome.  On success
the parsed `items` are returned with no error; on a
`RequestException` the error is shown via `st.error` (modelled as the
returned message list) and the result is `[]`. -/
def search_videos (resp : Except String (List SearchItem)) :
    List SearchItem × List String :=
  match resp with
  | Except.ok items => (items, [])
  | Except.error e => ([], ["Error searching videos: " ++ e])

/-- `YouTubeTutorialFinder.get_video_details`, likewise abstracted: the
empty id list short-circuits to `{}`; otherwise the response items are
keyed by their `id` (a later item overwrites an earlier one with the
same id, as Python dict assignment does — see `dictFind`); on failure
the error is reported and the dict is empty. -/
def get_video_details (video_ids : List String)
    (resp : Except String (List DetailsItem)) :
    List (String × DetailsItem) × List String :=
  if video_ids.isEmpty then ([], [])
  else
    match resp with
    | Except.ok items => (items.map (fun it => (it.id, it)), [])
    | Except.error e => ([], ["Error getting video details: " ++ e])

/-- Lookup in the association list built by `get_video_details`, with
Python-dict semantics: the last binding for a key wins. -/
def dictFind (l : List (String × DetailsItem)) (k : String) :
    Option DetailsItem :=
  l.foldl (fun acc p => if p.1 = k then some p.2 else acc) none

/-- The `video_info` dict built for one search item joined with its
details entry. -/
def mkRankedVideo (topic : String) (item : SearchItem)
    (details : DetailsItem) : RankedVideo :=
  { video_id := item.videoId
    title := item.title
    channel := item.channelTitle
    description := ⟨item.description.data.take 200 ++ "...".data⟩
    thumbnail := item.thumbnailUrl
    published := item.publishedAt
    url := "https://www.youtube.com/watch?v=" ++ item.videoId
    views := details.viewCount
    likes := details.likeCount
    comments := details.commentCount
    duration := details.duration
    quality_score := calculate_quality_score details
    extracted_topic := topic }

/-- The `ranked_videos` list before sorting: each search item with a
matching details entry, in API-returned order; items whose id is absent
from the details dict are skipped. -/
def buildCandidates (topic : String) (search_results : List SearchItem)
    (video_details : List (String × DetailsItem)) : List RankedVideo :=
  search_results.filterMap
    (fun item => (dictFind video_details item.videoId).map
      (mkRankedVideo topic item))

/-- Insert into a list sorted by descending `quality_score`, placing the
new element before the first strictly-smaller score and after any equal
score already present — the insertion step of a stable descending
sort. -/
def insertDesc (a : RankedVideo) : List RankedVideo → List RankedVideo
  | [] => [a]
  | b :: l =>
      if a.quality_score < b.quality_score then b :: insertDesc a l
      else a :: b :: l

/-- Stable sort by descending `quality_score`, modelling Python's stable
`list.sort(key=lambda x: x['quality_score'], reverse=True)`: equal
scores keep their original relative order (`sortDesc_filter_score`). -/
def sortDesc : List RankedVideo → List RankedVideo
  | [] => []
  | a :: l => insertDesc a (sortDesc l)

/-- `YouTubeTutorialFinder.find_best_tutorials`, with both network calls
abstracted as response inputs.  Returns the sorted, truncated tutorial
list together with the error messages reported to the UI. -/
def find_best_tutorials (user_query : String)
    (searchResp : Except String (List SearchItem))
    (detailsResp : Except String (List DetailsItem)) (top_n : Nat) :
    List RankedVideo × List String :=
  let topic := extract_topic_from_query user_query
  let s := search_videos searchResp
  if s.1.isEmpty then ([], s.2)
  else
    let vd := get_video_details (s.1.map SearchItem.videoId) detailsResp
    ((sortDesc (buildCandidates topic s.1 vd.1)).take top_n, s.2 ++ vd.2)

/-- The candidate list `find_best_tutorials` sorts, as a function of the
same inputs (empty when the search fails or returns nothing). -/
def candidatesOf (user_query : String)
    (searchResp : Except String (List SearchItem))
    (detailsResp : Except String (List DetailsItem)) : List RankedVideo :=
  let topic := extract_topic_from_query user_query
  let s := search_videos searchResp
  if s.1.isEmpty then []
  else
    let vd := get_video_details (s.1.map SearchItem.videoId) detailsResp
    buildCandidates topic s.1 vd.1

/-- One step of a learning roadmap. -/
structure Step where
  step : Nat
  title : String
  duration : String
  description : String
deriving DecidableEq

/-- The predefined `roadmaps["python"]["beginner"]` list. -/
def python_beginner : List Step :=
  [ ⟨1, "Python Basics & Syntax", "1-2 weeks",
      "Variables, data types, operators, and basic syntax"⟩,
    ⟨2, "Control Structures", "1 week",
      "If statements, loops (for, while), conditional logic"⟩,
    ⟨3, "Functions & Modules", "1-2 weeks",
      "Creating functions, parameters, return values, importing modules"⟩,
    ⟨4, "Data Structures", "2 weeks",
      "Lists, dictionaries, tuples, sets - manipulation and methods"⟩,
    ⟨5, "File Handling & Error Handling", "1 week",
      "Reading/writing files, exception handling with try/except"⟩,
    ⟨6, "Object-Oriented Programming", "2 weeks",
      "Classes, objects, inheritance, encapsulation"⟩,
    ⟨7, "Libraries & APIs", "1-2 weeks",
      "Working with external libraries, API calls, JSON handling"⟩ ]

/-- The predefined `roadmaps["python"]["intermediate"]` list. -/
def python_intermediate : List Step :=
  [ ⟨1, "Advanced Data Structures", "1 week",
      "Comprehensions, generators, decorators"⟩,
    ⟨2, "Web Development", "3-4 weeks",
      "Flask/Django basics, HTML templates, routing"⟩,
    ⟨3, "Database Integration", "2 weeks",
      "SQLite, PostgreSQL, ORM concepts"⟩,
    ⟨4, "Testing & Debugging", "1 week",
      "Unit testing, debugging techniques, logging"⟩,
    ⟨5, "Data Analysis", "2-3 weeks",
      "Pandas, NumPy, data manipulation and visualization"⟩,
    ⟨6, "API Development", "2 weeks",
      "RESTful APIs, FastAPI, authentication"⟩,
    ⟨7, "Deployment", "1 week",
      "Heroku, Docker basics, environment management"⟩ ]

/-- The predefined `roadmaps["javascript"]["beginner"]` list. -/
def javascript_beginner : List Step :=
  [ ⟨1, "JavaScript Fundamentals", "1-2 weeks",
      "Variables, data types, operators, basic syntax"⟩,
    ⟨2, "DOM Manipulation", "1-2 weeks",
      "Selecting elements, event handling, dynamic content"⟩,
    ⟨3, "Functions & Scope", "1 week",
      "Function declarations, arrow functions, scope concepts"⟩,
    ⟨4, "Arrays & Objects", "1-2 weeks",
      "Array methods, object manipulation, JSON"⟩,
    ⟨5, "Asynchronous JavaScript", "2 weeks",
      "Promises, async/await, fetch API"⟩,
    ⟨6, "ES6+ Features", "1 week",
      "Let/const, template literals, destructuring, modules"⟩,
    ⟨7, "Basic Projects", "2 weeks",
      "Todo app, calculator, simple games"⟩ ]

/-- The predefined `roadmaps["javascript"]["intermediate"]` list. -/
def javascript_intermediate : List Step :=
  [ ⟨1, "Modern JavaScript Frameworks", "3-4 weeks",
      "React.js or Vue.js fundamentals"⟩,
    ⟨2, "State Management", "2 weeks",
      "Redux, Context API, component state"⟩,
    ⟨3, "API Integration", "1-2 weeks",
      "REST APIs, GraphQL, authentication"⟩,
    ⟨4, "Build Tools", "1 week",
      "Webpack, Vite, npm/yarn package management"⟩,
    ⟨5, "Testing", "1-2 weeks",
      "Jest, React Testing Library, unit testing"⟩,
    ⟨6, "Performance Optimization", "1 week",
      "Code splitting, lazy loading, memoization"⟩,
    ⟨7, "Full-Stack Project", "3-4 weeks",
      "Complete web application with backend integration"⟩ ]

/-- The predefined `roadmaps["machine learning"]["beginner"]` list. -/
def machine_learning_beginner : List Step :=
  [ ⟨1, "Math Foundations", "2-3 weeks",
      "Linear algebra, statistics, calculus basics"⟩,
    ⟨2, "Python for ML", "2 weeks",
      "NumPy, Pandas, Matplotlib fundamentals"⟩,
    ⟨3, "Data Preprocessing", "1-2 weeks",
      "Cleaning data, handling missing values, feature scaling"⟩,
    ⟨4, "Supervised Learning", "3 weeks",
      "Linear regression, logistic regression, decision trees"⟩,
    ⟨5, "Model Evaluation", "1 week",
      "Cross-validation, metrics, overfitting/underfitting"⟩,
    ⟨6, "Unsupervised Learning", "2 weeks",
      "Clustering, dimensionality reduction, PCA"⟩,
    ⟨7, "First ML Project", "2 weeks",
      "End-to-end project with real dataset"⟩ ]

/-- The predefined `roadmaps["machine learning"]["intermediate"]` list. -/
def machine_learning_intermediate : List Step :=
  [ ⟨1, "Advanced Algorithms", "3 weeks",
      "Random Forest, SVM, ensemble methods"⟩,
    ⟨2, "Deep Learning Basics", "4 weeks",
      "Neural networks, TensorFlow/PyTorch introduction"⟩,
    ⟨3, "Computer Vision", "3 weeks",
      "CNN, image processing, OpenCV"⟩,
    ⟨4, "Natural Language Processing", "3 weeks",
      "Text preprocessing, sentiment analysis, word embeddings"⟩,
    ⟨5, "MLOps Fundamentals", "2 weeks",
      "Model deployment, monitoring, version control"⟩,
    ⟨6, "Advanced Projects", "4-5 weeks",
      "Portfolio projects with real-world applications"⟩,
    ⟨7, "Specialization", "Ongoing",
      "Choose focus area: CV, NLP, or other domain"⟩ ]

/-- `roadmaps[key].get(skill_level)`: the inner dict lookup; each key has
exactly the skill levels "beginner" and "intermediate". -/
def roadmapSkillTable (key skill : String) : Option (List Step) :=
  if key = "python" then
    if skill = "beginner" then some python_beginner
    else if skill = "intermediate" then some python_intermediate
    else none
  else if key = "javascript" then
    if skill = "beginner" then some javascript_beginner
    else if skill = "intermediate" then some javascript_intermediate
    else none
  else if key = "machine learning" then
    if skill = "beginner" then some machine_learning_beginner
    else if skill = "intermediate" then some machine_learning_intermediate
    else none
  else none

/-- `roadmaps[key]["beginner"]`, the fallback list for a matched key. -/
def roadmapBeginner (key : String) : List Step :=
  (roadmapSkillTable key "beginner").getD []

/-- Substring test, Python's `needle in hay`. -/
def containsSub (needle hay : List Char) : Bool :=
  hay.tails.any (fun t => needle.isPrefixOf t)

/-- The `for key in roadmaps.keys()` scan: the first key (in insertion
order) contained in the lower-cased topic. -/
def firstRoadmapKey (topic : String) : Option String :=
  ["python", "javascript", "machine learning"].find?
    (fun k => containsSub k.data (lowerStr topic).data)

/-- The synthesized 5-step generic roadmap for an unknown topic. -/
def generic_roadmap (topic : String) : List Step :=
  [ ⟨1, "Fundamentals", "1-2 weeks",
      "Learn basic concepts of " ++ topic⟩,
    ⟨2, "Core Concepts", "2-3 weeks",
      "Dive deeper into " ++ topic ++ " principles"⟩,
    ⟨3, "Practical Application", "2-3 weeks",
      "Build projects using " ++ topic⟩,
    ⟨4, "Advanced Topics", "3-4 weeks",
      "Explore advanced " ++ topic ++ " concepts"⟩,
    ⟨5, "Specialization", "Ongoing",
      "Focus on specific areas within " ++ topic⟩ ]

/-- `RoadmapGenerator.generate_roadmap`: first matching key wins; an
unrecognized skill level falls back to that key's beginner list; no
matching key synthesizes the generic roadmap. -/
def generate_roadmap (topic skill_level : String) : List Step :=
  match firstRoadmapKey topic with
  | some key => (roadmapSkillTable key skill_level).getD (roadmapBeginner key)
  | none => generic_roadmap topic

example : generate_roadmap "Machine Learning Basics" "intermediate" =
    machine_learning_intermediate := by decide
example : generate_roadmap "python stuff" "advanced" = python_beginner := by
  decide
example : generate_roadmap "knitting" "beginner" =
    generic_roadmap "knitting" := by decide

/-- C8: `extract_topic_from_query("I want to learn Python basics")` returns
exactly `"python basics"`. -/
theorem extract_topic_example :
    extract_topic_from_query "I want to learn Python basics" =
      "python basics" := by decide

/-- C6: for every non-empty input string, `extract_topic_from_query`
returns a non-empty string — if cleaning leaves an empty result it falls
back to the original raw query. -/
theorem extract_topic_nonempty (q : String) (h : q ≠ "") :
    extract_topic_from_query q ≠ "" := by
  have key : ∀ l : List Char, (if l.isEmpty then q else (⟨l⟩ : String)) ≠ "" := by
    intro l
    by_cases hl : l.isEmpty
    · simpa [hl] using h
    · simp only [hl, Bool.false_eq_true, if_false]
      intro hEq
      apply hl
      have hd := congrArg String.data hEq
      rw [List.isEmpty_iff]
      exact hd
  unfold extract_topic_from_query
  exact key _

/-- Witness for C6 at the concrete input `"hello"`. -/
theorem extract_topic_nonempty_witness :
    ("hello" : String) ≠ "" ∧ extract_topic_from_query "hello" ≠ "" :=
  ⟨by decide, extract_topic_nonempty "hello" (by decide)⟩

/-- C2, counterexample: `"PT45SX"` is not of the `PT#H#M#S` form (the
duration regex does not consume the whole string), yet `parse_duration`
returns 45, not 0 — the regex is a prefix match, so a malformed string
with a parseable prefix does not parse as 0. -/
theorem parse_duration_malformed_cex :
    wellFormedDuration "PT45SX" = false ∧
      parse_duration "PT45SX" = 45 ∧ parse_duration "PT45SX" ≠ 0 := by
  decide

/-- C2 (amended): `parse_duration` maps `"PT1H5M30S"` to 3930 and
`"PT45S"` to 45; missing components default to 0 (`"PT5M"` → 300); a
string with no leading `"PT"` parses as 0; and a malformed string with a
parseable prefix parses as that prefix (e.g. `"PT45SX"` → 45), not
necessarily as 0. -/
theorem parse_duration_amended :
    parse_duration "PT1H5M30S" = 3930 ∧ parse_duration "PT45S" = 45 ∧
      parse_duration "PT5M" = 300 ∧ parse_duration "PT45SX" = 45 ∧
      ∀ s : String, startsWithPT s.data = false → parse_duration s = 0 := by
  refine ⟨by decide, by decide, by decide, by decide, ?_⟩
  intro s hs
  simp [parse_duration, hs]

/-- Witness for C2's amended theorem at the concrete input `"hello"`. -/
theorem parse_duration_amended_witness :
    startsWithPT "hello".data = false ∧ parse_duration "hello" = 0 :=
  ⟨by decide, parse_duration_amended.2.2.2.2 "hello" (by decide)⟩

/-- C10: for every statistics input (counts are naturals, any duration
string), `calculate_quality_score` is at least 18: the duration score is
bounded below by 6/10 and the views and engagement terms are
nonnegative; in particular the score is strictly positive. -/
theorem quality_score_lower_bound (d : DetailsItem) :
    18 ≤ calculate_quality_score d ∧ 0 < calculate_quality_score d := by
  have hds : (6 : ℚ)/10 ≤
      duration_score ((parse_duration d.duration : ℚ) / 60) := by
    unfold duration_score
    split_ifs <;> norm_num
  have her : 0 ≤ engagement_rate d.viewCount d.likeCount d.commentCount := by
    unfold engagement_rate
    positivity
  have hviews : (0 : ℚ) ≤ (d.viewCount : ℚ) / 1000 * (3/10) := by positivity
  have h18 : 18 ≤ calculate_quality_score d := by
    unfold calculate_quality_score quality_formula
    simp only
    nlinarith [hds, her, hviews]
  exact ⟨h18, lt_of_lt_of_le (by norm_num) h18⟩

/-- C1, counterexample: raising the view count from 1 to 2 with likes,
comments and duration fixed lowers the quality score (the engagement
rate's denominator grows much faster than the views term). -/
theorem quality_score_not_monotone_in_views_cex :
    calculate_quality_score ⟨"v", 2, 1000, 0, "PT0S"⟩ <
      calculate_quality_score ⟨"v", 1, 1000, 0, "PT0S"⟩ := by
  have h0 : parse_duration "PT0S" = 0 := by decide
  have hm2 : max 2 1 = 2 := by decide
  have hm1 : max 1 1 = 1 := by decide
  unfold calculate_quality_score quality_formula engagement_rate
    duration_score
  dsimp only
  rw [h0, hm2, hm1]
  norm_num

/-- C1 (amended): the quality score is monotonically non-decreasing in
the engagement rate with views and duration fixed (equivalently, in
likes + comments), and non-decreasing in views only when the engagement
rate fed to the formula is held fixed — raising raw views with likes and
comments fixed can lower the score. -/
theorem quality_score_monotonicity_amended :
    (∀ (i i' : String) (v l c l' c' : Nat) (dur : String),
      l + c ≤ l' + c' →
        calculate_quality_score ⟨i, v, l, c, dur⟩ ≤
          calculate_quality_score ⟨i', v, l', c', dur⟩) ∧
      (∀ va vb er ds : ℚ, va ≤ vb →
        quality_formula va er ds ≤ quality_formula vb er ds) ∧
      ∀ v era erb ds : ℚ, era ≤ erb →
        quality_formula v era ds ≤ quality_formula v erb ds := by
  refine ⟨?_, ?_, ?_⟩
  · intro i i' v l c l' c' dur h
    have hc : ((l : ℚ) + (c : ℚ)) ≤ ((l' : ℚ) + (c' : ℚ)) := by
      exact_mod_cast h
    have hD : (0 : ℚ) < ((max v 1 : Nat) : ℚ) := by
      have h1 : 1 ≤ max v 1 := le_max_right v 1
      exact_mod_cast Nat.lt_of_lt_of_le Nat.zero_lt_one h1
    have her : engagement_rate v l c ≤ engagement_rate v l' c' := by
      unfold engagement_rate
      apply mul_le_mul_of_nonneg_right _ (by norm_num : (0:ℚ) ≤ 100)
      exact (div_le_div_iff_of_pos_right hD).mpr hc
    unfold calculate_quality_score quality_formula
    simp only
    nlinarith [her]
  · intro va vb er ds h
    unfold quality_formula
    nlinarith [h]
  · intro v era erb ds h
    unfold quality_formula
    nlinarith [h]

/-- Witness for C1's amended theorem at concrete statistics. -/
theorem quality_score_monotonicity_amended_witness :
    (3 + 4 : Nat) ≤ 5 + 6 ∧
      calculate_quality_score ⟨"a", 10, 3, 4, "PT20M"⟩ ≤
        calculate_quality_score ⟨"b", 10, 5, 6, "PT20M"⟩ :=
  ⟨by decide,
    quality_score_monotonicity_amended.1 "a" "b" 10 3 4 5 6 "PT20M"
      (by decide)⟩

/-- C9: `generate_roadmap "Machine Learning Basics" "intermediate"`
returns exactly the predefined machine-learning intermediate list; in
general the first key contained in the lower-cased topic selects its
table, with a skill level unrecognized for that key falling back to the
key's beginner list. -/
theorem generate_roadmap_lookup :
    generate_roadmap "Machine Learning Basics" "intermediate" =
        machine_learning_intermediate ∧
      (∀ topic skill key steps, firstRoadmapKey topic = some key →
        roadmapSkillTable key skill = some steps →
        generate_roadmap topic skill = steps) ∧
      ∀ topic skill key, firstRoadmapKey topic = some key →
        roadmapSkillTable key skill = none →
        generate_roadmap topic skill = roadmapBeginner key := by
  refine ⟨by decide, ?_, ?_⟩
  · intro topic skill key steps h1 h2
    unfold generate_roadmap
    rw [h1]
    simp [h2]
  · intro topic skill key h1 h2
    unfold generate_roadmap
    rw [h1]
    simp [h2]

/-- Witness for C9 at a matched key with an unrecognized skill level. -/
theorem generate_roadmap_lookup_witness :
    firstRoadmapKey "python stuff" = some "python" ∧
      roadmapSkillTable "python" "advanced" = none ∧
      generate_roadmap "python stuff" "advanced" =
        roadmapBeginner "python" :=
  ⟨by decide, by decide,
    generate_roadmap_lookup.2.2 "python stuff" "advanced" "python"
      (by decide) (by decide)⟩

/-- One-step unfolding of the substitution worker on a non-empty input. -/
theorem reSubAux_cons (p : List Atom) (repl : List Char) (fuel : Nat)
    (c : Char) (cs : List Char) :
    reSubAux p repl (fuel + 1) (c :: cs) =
      match matchAtoms p (c :: cs) with
      | some r =>
          if r.length < (c :: cs).length then repl ++ reSubAux p repl fuel r
          else c :: reSubAux p repl fuel cs
      | none => c :: reSubAux p repl fuel cs := rfl

/-- The fuel of `reSubAux` is irrelevant once it covers the input
length. -/
theorem reSubAux_fuel_irrel (p : List Atom) (repl : List Char) :
    ∀ (f1 f2 : Nat) (s : List Char), s.length ≤ f1 → s.length ≤ f2 →
      reSubAux p repl f1 s = reSubAux p repl f2 s := by
  intro f1
  induction f1 with
  | zero =>
    intro f2 s h1 _
    have hs : s = [] := List.length_eq_zero.mp (Nat.le_zero.mp h1)
    subst hs
    cases f2 <;> rfl
  | succ f ih =>
    intro f2 s h1 h2
    cases s with
    | nil => cases f2 <;> rfl
    | cons c cs =>
      cases f2 with
      | zero => simp at h2
      | succ f2' =>
        rw [reSubAux_cons, reSubAux_cons]
        simp only [List.length_cons] at h1 h2
        cases hm : matchAtoms p (c :: cs) with
        | none =>
          dsimp only
          rw [ih f2' cs (by omega) (by omega)]
        | some r =>
          dsimp only
          by_cases hlt : r.length < (c :: cs).length
          · have hlt' : r.length < cs.length + 1 := by simpa using hlt
            rw [if_pos hlt, if_pos hlt, ih f2' r (by omega) (by omega)]
          · rw [if_neg hlt, if_neg hlt, ih f2' cs (by omega) (by omega)]

/-- C3 (amended): each filler pattern removes every non-overlapping
match, scanning left to right — after a (non-empty) match is removed,
substitution continues on the remainder of the string and removes
further matches of the same pattern, rather than stopping at the first
one; patterns are applied in listed order. -/
theorem reSub_removes_all_matches (p : List Atom) (repl : List Char)
    (s r : List Char) (h : matchAtoms p s = some r)
    (hlt : r.length < s.length) :
    reSub p repl s = repl ++ reSub p repl r := by
  cases s with
  | nil => simp at hlt
  | cons c cs =>
    show reSubAux p repl (cs.length + 1) (c :: cs) = _
    rw [reSubAux_cons, h]
    simp only [hlt, if_true]
    unfold reSub
    rw [reSubAux_fuel_irrel p repl cs.length r.length r
      (by simpa using Nat.lt_succ_iff.mp (by simpa using hlt)) le_rfl]

/-- Witness for C3's amended theorem: removing the first `"please "`
match from `"please please python"` leaves `"please python"`, on which
substitution continues (and removes the second match). -/
theorem reSub_removes_all_matches_witness :
    matchAtoms pat_please "please please python".data =
        some "please python".data ∧
      ("please python".data).length <
        ("please please python".data).length ∧
      reSub pat_please [] "please please python".data =
        [] ++ reSub pat_please [] "please python".data :=
  ⟨by decide, by decide,
    reSub_removes_all_matches pat_please [] "please please python".data
      "please python".data (by decide) (by decide)⟩

/-- C3, counterexample: on `"please please python"` the code removes
both occurrences of the `"please\s+"` pattern (Python `re.sub` replaces
all non-overlapping matches), while the claimed first-match-only
behaviour would leave `"please python"`. -/
theorem filler_removal_first_match_cex :
    extract_topic_from_query "please please python" = "python" ∧
      extract_topic_firstMatchOnly "please please python" =
        "please python" ∧
      extract_topic_from_query "please please python" ≠
        extract_topic_firstMatchOnly "please please python" := by decide

/-- Membership in an insertion is membership in the inserted element or
the original list. -/
theorem mem_insertDesc {a x : RankedVideo} {l : List RankedVideo} :
    x ∈ insertDesc a l ↔ x = a ∨ x ∈ l := by
  induction l with
  | nil => simp [insertDesc]
  | cons b t ih =>
    unfold insertDesc
    split
    all_goals simp only [List.mem_cons, ih]
    all_goals tauto

/-- Inserting into a descending-sorted list keeps it descending. -/
theorem pairwise_insertDesc {a : RankedVideo} {l : List RankedVideo}
    (h : l.Pairwise (fun x y => y.quality_score ≤ x.quality_score)) :
    (insertDesc a l).Pairwise
      (fun x y => y.quality_score ≤ x.quality_score) := by
  induction l with
  | nil => simp [insertDesc]
  | cons b t ih =>
    rw [List.pairwise_cons] at h
    obtain ⟨hb, ht⟩ := h
    unfold insertDesc
    split
    · rename_i hab
      rw [List.pairwise_cons]
      refine ⟨?_, ih ht⟩
      intro y hy
      rcases mem_insertDesc.mp hy with rfl | hy'
      · exact le_of_lt hab
      · exact hb y hy'
    · rename_i hab
      rw [List.pairwise_cons]
      refine ⟨?_, List.pairwise_cons.mpr ⟨hb, ht⟩⟩
      intro y hy
      rcases List.mem_cons.mp hy with rfl | hy'
      · exact not_lt.mp hab
      · exact le_trans (hb y hy') (not_lt.mp hab)

/-- The stable sort returns a descending-sorted list. -/
theorem pairwise_sortDesc (l : List RankedVideo) :
    (sortDesc l).Pairwise (fun x y => y.quality_score ≤ x.quality_score) := by
  induction l with
  | nil => simp [sortDesc]
  | cons a t ih => exact pairwise_insertDesc ih

/-- Elements of the sorted list are exactly those of the input. -/
theorem mem_sortDesc {x : RankedVideo} {l : List RankedVideo} :
    x ∈ sortDesc l ↔ x ∈ l := by
  induction l with
  | nil => simp [sortDesc]
  | cons a t ih => simp [sortDesc, mem_insertDesc, ih]

/-- Insertion is stable: restricted to any one score class, it prepends
the new element exactly when it has that score, because every element it
skips has a strictly larger score. -/
theorem filter_insertDesc (c : ℚ) (a : RankedVideo) (l : List RankedVideo) :
    (insertDesc a l).filter (fun v => decide (v.quality_score = c)) =
      if a.quality_score = c
      then a :: l.filter (fun v => decide (v.quality_score = c))
      else l.filter (fun v => decide (v.quality_score = c)) := by
  induction l with
  | nil =>
    simp only [insertDesc]
    by_cases hac : a.quality_score = c <;> simp [hac]
  | cons b t ih =>
    simp only [insertDesc]
    split
    · rename_i hab
      by_cases hbc : b.quality_score = c
      · by_cases hac : a.quality_score = c
        · exact absurd hab (by rw [hac, hbc]; exact lt_irrefl c)
        · simp [List.filter_cons, hbc, hac, ih]
      · simp [List.filter_cons, hbc, ih]
    · simp [List.filter_cons]

/-- The stable sort preserves each score class in order (ties keep their
original relative order). -/
theorem filter_sortDesc (c : ℚ) (l : List RankedVideo) :
    (sortDesc l).filter (fun v => decide (v.quality_score = c)) =
      l.filter (fun v => decide (v.quality_score = c)) := by
  induction l with
  | nil => rfl
  | cons a t ih =>
    simp only [sortDesc]
    rw [filter_insertDesc, ih]
    by_cases hac : a.quality_score = c <;> simp [List.filter_cons, hac]

/-- Filtering a prefix gives a prefix of the filtered list. -/
theorem filter_take_isPre {α : Type} (p : α → Bool) (n : Nat) (l : List α) :
    (l.take n).filter p <+: l.filter p := by
  conv_rhs => rw [← List.take_append_drop n l]
  rw [List.filter_append]
  exact ⟨_, rfl⟩

/-- The result sequence of `find_best_tutorials` is the stably sorted
candidate list truncated to `top_n`. -/
theorem find_best_fst_eq (q : String) (sr : Except String (List SearchItem))
    (dr : Except String (List DetailsItem)) (n : Nat) :
    (find_best_tutorials q sr dr n).1 =
      (sortDesc (candidatesOf q sr dr)).take n := by
  unfold find_best_tutorials candidatesOf
  by_cases h : (search_videos sr).1.isEmpty <;> simp [h, sortDesc]

/-- C4: for every query, pair of responses and topN, the sequence
returned by `find_best_tutorials` has length at most topN, is ordered by
descending quality score, and restricted to any one score value is a
prefix of the candidate list in API-returned order — ties between equal
scores keep the original relative order (stable sort). -/
theorem find_best_tutorials_sorted_stable_topN (q : String)
    (sr : Except String (List SearchItem))
    (dr : Except String (List DetailsItem)) (n : Nat) :
    (find_best_tutorials q sr dr n).1.length ≤ n ∧
      (find_best_tutorials q sr dr n).1.Pairwise
        (fun x y => y.quality_score ≤ x.quality_score) ∧
      ∀ c : ℚ,
        (find_best_tutorials q sr dr n).1.filter
            (fun v => decide (v.quality_score = c)) <+:
          (candidatesOf q sr dr).filter
            (fun v => decide (v.quality_score = c)) := by
  rw [find_best_fst_eq]
  refine ⟨List.length_take_le n _, ?_, ?_⟩
  · exact List.Pairwise.sublist (List.take_sublist n _) (pairwise_sortDesc _)
  · intro c
    have h1 := filter_take_isPre (fun v => decide (v.quality_score = c)) n
      (sortDesc (candidatesOf q sr dr))
    rwa [filter_sortDesc] at h1

/-- A missing details dict produces no candidates. -/
theorem buildCandidates_nil_details (topic : String)
    (l : List SearchItem) : buildCandidates topic l [] = [] := by
  induction l with
  | nil => rfl
  | cons a t ih =>
    simp only [buildCandidates, List.filterMap_cons, dictFind,
      List.foldl_nil, Option.map_none'] at ih ⊢
    exact ih

/-- C5: when the search call fails, the error is reported and the result
is empty (whatever the details response would have been); when the
search succeeds with items but the details call fails, that error is
reported and the result is empty — no retry, no partial result, and the
function is total (failures are never fatal). -/
theorem find_best_tutorials_error_handling (q e : String) (n : Nat) :
    (∀ dr, find_best_tutorials q (Except.error e) dr n =
        ([], ["Error searching videos: " ++ e])) ∧
      ∀ sItems, sItems ≠ [] →
        find_best_tutorials q (Except.ok sItems) (Except.error e) n =
          ([], ["Error getting video details: " ++ e]) := by
  constructor
  · intro dr
    rfl
  · intro sItems hne
    cases sItems with
    | nil => exact absurd rfl hne
    | cons a t =>
      unfold find_best_tutorials
      simp [search_videos, get_video_details, buildCandidates_nil_details,
        sortDesc]

/-- Sample search item for concrete witnesses. -/
def itemA : SearchItem := ⟨"vid1", "Title", "Chan", "Desc", "Thumb", "Pub"⟩

/-- Sample details item for concrete witnesses, keyed like `itemA`. -/
def detailA : DetailsItem := ⟨"vid1", 100, 10, 5, "PT15M"⟩

/-- Witness for C5 at a concrete query, error and item list. -/
theorem find_best_tutorials_error_handling_witness :
    find_best_tutorials "x" (Except.error "boom") (Except.ok []) 5 =
        ([], ["Error searching videos: " ++ "boom"]) ∧
      [itemA] ≠ ([] : List SearchItem) ∧
      find_best_tutorials "x" (Except.ok [itemA]) (Except.error "boom") 5 =
        ([], ["Error getting video details: " ++ "boom"]) :=
  ⟨(find_best_tutorials_error_handling "x" "boom" 5).1 (Except.ok []),
    by simp,
    (find_best_tutorials_error_handling "x" "boom" 5).2 [itemA] (by simp)⟩

/-- C7: when both calls succeed, no error is reported and every returned
tutorial's videoId appears both among the search items and among the
keys of the details dict — a search item without a matching details
entry is silently dropped by the join, never surfaced as an error. -/
theorem ranked_tutorial_join_invariant (q : String)
    (sItems : List SearchItem) (dItems : List DetailsItem) (n : Nat) :
    (find_best_tutorials q (Except.ok sItems) (Except.ok dItems) n).2 = [] ∧
      ∀ v ∈ (find_best_tutorials q (Except.ok sItems) (Except.ok dItems) n).1,
        v.video_id ∈ sItems.map SearchItem.videoId ∧
          (dictFind (dItems.map (fun d => (d.id, d))) v.video_id).isSome
            = true := by
  constructor
  · unfold find_best_tutorials
    cases sItems with
    | nil => rfl
    | cons a t => simp [search_videos, get_video_details]
  · intro v hv
    rw [find_best_fst_eq] at hv
    have hv2 : v ∈ sortDesc (candidatesOf q (Except.ok sItems)
        (Except.ok dItems)) := (List.take_sublist n _).subset hv
    have hv3 : v ∈ candidatesOf q (Except.ok sItems) (Except.ok dItems) :=
      mem_sortDesc.mp hv2
    cases sItems with
    | nil => simp [candidatesOf, search_videos] at hv3
    | cons a t =>
      simp only [candidatesOf, search_videos] at hv3
      rw [if_neg (by simp)] at hv3
      simp only [get_video_details] at hv3
      rw [if_neg (by simp)] at hv3
      obtain ⟨item, hitem, hmap⟩ := List.mem_filterMap.mp hv3
      cases hd : dictFind (dItems.map (fun d => (d.id, d))) item.videoId with
      | none => rw [hd] at hmap; simp at hmap
      | some d =>
        rw [hd] at hmap
        simp only [Option.map_some', Option.some.injEq] at hmap
        subst hmap
        constructor
        · exact List.mem_map_of_mem SearchItem.videoId hitem
        · show (dictFind (dItems.map (fun d => (d.id, d)))
            item.videoId).isSome = true
          rw [hd]
          rfl

/-- Witness for C7 on a one-item search response joined with a matching
one-item details response. -/
theorem ranked_tutorial_join_invariant_witness :
    mkRankedVideo (extract_topic_from_query "zz") itemA detailA ∈
        (find_best_tutorials "zz" (Except.ok [itemA])
          (Except.ok [detailA]) 5).1 ∧
      (mkRankedVideo (extract_topic_from_query "zz") itemA
          detailA).video_id ∈ [itemA].map SearchItem.videoId ∧
        (dictFind ([detailA].map (fun d => (d.id, d)))
            (mkRankedVideo (extract_topic_from_query "zz") itemA
              detailA).video_id).isSome = true := by
  have hlist : (find_best_tutorials "zz" (Except.ok [itemA])
      (Except.ok [detailA]) 5).1 =
      [mkRankedVideo (extract_topic_from_query "zz") itemA detailA] := by
    unfold find_best_tutorials
    simp [search_videos, get_video_details, buildCandidates, dictFind,
      sortDesc, insertDesc, itemA, detailA]
  have hmem : mkRankedVideo (extract_topic_from_query "zz") itemA detailA ∈
      (find_best_tutorials "zz" (Except.ok [itemA])
        (Except.ok [detailA]) 5).1 := by
    rw [hlist]
    exact List.mem_singleton.mpr rfl
  exact ⟨hmem,
    (ranked_tutorial_join_invariant "zz" [itemA] [detailA] 5).2 _ hmem⟩
